import Mathlib

/-! # Verification development for the Go package `errs`

Shallow embedding of `errs/errs.go` and `errs/stacktrace.go`.

* Go strings are modelled by Lean strings (valid UTF-8 text), and indices into
  them by positions in the list of characters.  Every byte the code searches
  for (`%`, `/`, `.`, `[`, `]`, digits) is ASCII, so a search by characters and
  a search by bytes find the same places.
* `int32` codes are modelled by `Int`; the package does no arithmetic on them.
* A Go `error` interface value is modelled by the inductive type `error`:
  the nil interface, a `*Error` (nil or not), or a value of some other type
  with its `Error()` text, the result of its `Unwrap() error` or
  `Unwrap() []error` method, and what its `As` method stores for a target of
  type `*Error`.
* A run-time panic (nil-pointer dereference) is modelled by `none`.
* The parts of the Go standard library the package calls (`fmt.Sprintf`,
  `errors.As`, `strings`, `path.Base`, `runtime.Callers`, `runtime.FuncForPC`)
  are modelled in the section that precedes the package itself.
-/

set_option linter.dupNamespace false

namespace errs

/-! ## The standard library: `fmt` -/

/-- The flag and width state of a `fmt` printer (`fmt.fmtFlags`, `wid`, `prec`). -/
structure fmtFlags where
  widPresent : Bool := false
  precPresent : Bool := false
  minus : Bool := false
  plus : Bool := false
  sharp : Bool := false
  space : Bool := false
  zero : Bool := false
  plusV : Bool := false
  sharpV : Bool := false
  wid : Int := 0
  prec : Int := 0

/-- An operand of a formatting call (a value of type `interface{}`), described
by what `fmt` can observe of it: the name of its dynamic type (`none` for a
nil interface), its value when `intFromArg` accepts it as a width or a
precision, and the text `printArg` writes for it under given flags and verb. -/
structure Operand where
  typeString : Option String
  intValue : Option Int
  print : fmtFlags → Char → String

/-- The printer state `fmt.pp`, as far as `doPrintf` uses it. -/
structure pp where
  buf : String := ""
  fmt : fmtFlags := {}
  reordered : Bool := false
  goodArgNum : Bool := true

/-- The function `fmt.tooLarge`. -/
def tooLarge (x : Int) : Bool := x > 1000000 || x < -1000000

/-- The loop of `fmt.parsenum` over the unread text `format[newi:end]`:
returns `num`, `isnum` and the text left unread. -/
def parsenumLoop : List Char → Int → Bool → Int × Bool × List Char
  | [], num, isnum => (num, isnum, [])
  | c :: cs, num, isnum =>
    if '0' ≤ c ∧ c ≤ '9' then
      if tooLarge num then (0, false, [])
      else parsenumLoop cs (num * 10 + ((c.toNat : Int) - ('0'.toNat : Int))) true
    else (num, isnum, c :: cs)

/-- The function `fmt.parsenum(s, start, end)` on the text `s[start:end]`. -/
def parsenum (s : List Char) : Int × Bool × List Char :=
  parsenumLoop s 0 false

/-- The function `fmt.parseArgNumber` on `format[i:]`, whose first character
is `[`: the index, the text that follows the bytes consumed, and `ok`. -/
def parseArgNumber (s : List Char) : Int × List Char × Bool :=
  if s.length < 3 then (0, s.drop 1, false)
  else
    let body := s.drop 1
    let inner := body.takeWhile (fun c => c != ']')
    if inner.length < body.length then
      match parsenum inner with
      | (width, ok, rest) =>
        if !ok || !rest.isEmpty then (0, s.drop (inner.length + 2), false)
        else (width - 1, s.drop (inner.length + 2), true)
    else (0, s.drop 1, false)

/-- The method `(*pp).argNumber`: the printer, the next argument number, the
unread format and `found`. -/
def argNumber (p : pp) (argNum : Nat) (s : List Char) (numArgs : Nat) :
    pp × Nat × List Char × Bool :=
  match s with
  | '[' :: _ =>
    let p1 := { p with reordered := true }
    match parseArgNumber s with
    | (index, rest, ok) =>
      if ok && decide (0 ≤ index) && decide (index < (numArgs : Int)) then
        (p1, index.toNat, rest, true)
      else ({ p1 with goodArgNum := false }, argNum, rest, ok)
  | _ => (p, argNum, s, false)

/-- The function `fmt.intFromArg`: `num`, `isInt` and the new argument number. -/
def intFromArg (a : List Operand) (argNum : Nat) : Int × Bool × Nat :=
  match a.get? argNum with
  | none => (0, false, argNum)
  | some arg =>
    match arg.intValue with
    | none => (0, false, argNum + 1)
    | some n => if tooLarge n then (0, false, argNum + 1) else (n, true, argNum + 1)

/-- The flag loop `simpleFormat` of `doPrintf`: consumes the flag characters
at the head of the unread format. -/
def scanFlags : List Char → fmtFlags → fmtFlags × List Char
  | [], f => (f, [])
  | c :: cs, f =>
    if c = '#' then scanFlags cs { f with sharp := true }
    else if c = '0' then scanFlags cs { f with zero := !f.minus }
    else if c = '+' then scanFlags cs { f with plus := true }
    else if c = '-' then scanFlags cs { f with minus := true, zero := false }
    else if c = ' ' then scanFlags cs { f with space := true }
    else (f, c :: cs)

/-- The flag changes `doPrintf` makes before printing under the verbs `v` and `w`. -/
def verbFlags (f : fmtFlags) (verb : Char) : fmtFlags :=
  if verb = 'v' ∨ verb = 'w' then
    { f with sharpV := f.sharp, sharp := false, plusV := f.plus, plus := false }
  else f

/-- The width part of a directive in `doPrintf`. -/
def scanWidth (a : List Operand) (p : pp) (argNum : Nat) (afterIndex : Bool) (s : List Char) :
    pp × Nat × Bool × List Char :=
  match s with
  | '*' :: cs =>
    match intFromArg a argNum with
    | (wid, present, argNum1) =>
      let p1 := { p with fmt := { p.fmt with wid := wid, widPresent := present } }
      let p2 := if !present then { p1 with buf := p1.buf ++ "%!(BADWIDTH)" } else p1
      let p3 := if wid < 0 then
          { p2 with fmt := { p2.fmt with wid := -wid, minus := true, zero := false } }
        else p2
      (p3, argNum1, false, cs)
  | _ =>
    match parsenum s with
    | (wid, present, rest) =>
      let p1 := { p with fmt := { p.fmt with wid := wid, widPresent := present } }
      let p2 := if afterIndex && present then { p1 with goodArgNum := false } else p1
      (p2, argNum, afterIndex, rest)

/-- The precision part of a directive in `doPrintf`: a `.` starts a precision
only when another byte follows it (`i+1 < end`). -/
def scanPrec (a : List Operand) (p : pp) (argNum : Nat) (afterIndex : Bool) (s : List Char) :
    pp × Nat × Bool × List Char :=
  match s with
  | '.' :: c :: rest =>
    let cs := c :: rest
    let p0 := if afterIndex then { p with goodArgNum := false } else p
    match argNumber p0 argNum cs a.length with
    | (p1, argNum1, s1, afterIndex1) =>
      match s1 with
      | '*' :: cs1 =>
        match intFromArg a argNum1 with
        | (prec, present, argNum2) =>
          let prec1 := if prec < 0 then 0 else prec
          let present1 := if prec < 0 then false else present
          let p2 := { p1 with fmt := { p1.fmt with prec := prec1, precPresent := present1 } }
          let p3 := if !present1 then { p2 with buf := p2.buf ++ "%!(BADPREC)" } else p2
          (p3, argNum2, false, cs1)
      | _ =>
        match parsenum s1 with
        | (prec, present, rest) =>
          let prec1 := if !present then 0 else prec
          ({ p1 with fmt := { p1.fmt with prec := prec1, precPresent := true } },
            argNum1, afterIndex1, rest)
  | _ => (p, argNum, afterIndex, s)

/-- The text `doPrintf` appends for operands that no directive consumed. -/
def extraArgs : List Operand → List String
  | [] => []
  | arg :: rest =>
    (match arg.typeString with
      | none => "<nil>"
      | some t => t ++ "=" ++ arg.print {} 'v') :: extraArgs rest

/-- The loop `formatLoop` of `(*pp).doPrintf`, one directive per unit of fuel;
returns the printer and the next argument number. -/
def formatLoop (a : List Operand) : Nat → pp → Nat → List Char → pp × Nat
  | 0, p, argNum, _ => (p, argNum)
  | fuel + 1, p, argNum, format =>
    let p := { p with goodArgNum := true }
    let lit := format.takeWhile (fun c => c != '%')
    let p := { p with buf := p.buf ++ String.mk lit }
    match format.dropWhile (fun c => c != '%') with
    | [] => (p, argNum)
    | _ :: afterPercent =>
      match scanFlags afterPercent {} with
      | (flags, s) =>
        let p := { p with fmt := flags }
        let fast : Option (Char × List Char) :=
          match s with
          | c :: cs => if 'a' ≤ c ∧ c ≤ 'z' ∧ argNum < a.length then some (c, cs) else none
          | [] => none
        match fast, a.get? argNum with
        | some (c, cs), some arg =>
          let fl := verbFlags p.fmt c
          formatLoop a fuel { p with fmt := fl, buf := p.buf ++ arg.print fl c } (argNum + 1) cs
        | _, _ =>
          match argNumber p argNum s a.length with
          | (p, argNum, s, afterIndex) =>
            match scanWidth a p argNum afterIndex s with
            | (p, argNum, afterIndex, s) =>
              match scanPrec a p argNum afterIndex s with
              | (p, argNum, afterIndex, s) =>
                match (if !afterIndex then argNumber p argNum s a.length
                       else (p, argNum, s, afterIndex)) with
                | (p, argNum, s, _) =>
                  match s with
                  | [] => ({ p with buf := p.buf ++ "%!(NOVERB)" }, argNum)
                  | verb :: rest =>
                    if verb = '%' then
                      formatLoop a fuel { p with buf := p.buf ++ "%" } argNum rest
                    else if !p.goodArgNum then
                      formatLoop a fuel
                        { p with buf := p.buf ++ "%!" ++ String.singleton verb ++ "(BADINDEX)" }
                        argNum rest
                    else
                      match a.get? argNum with
                      | none =>
                        formatLoop a fuel
                          { p with buf := p.buf ++ "%!" ++ String.singleton verb ++ "(MISSING)" }
                          argNum rest
                      | some arg =>
                        let fl := verbFlags p.fmt verb
                        formatLoop a fuel { p with fmt := fl, buf := p.buf ++ arg.print fl verb }
                          (argNum + 1) rest

/-- The method `(*pp).doPrintf` followed by reading the buffer, that is
`fmt.Sprintf(format, a...)`.  Every directive consumes at least its `%`, so
the length of the format bounds the number of directives. -/
def Sprintf (format : String) (a : List Operand) : String :=
  match formatLoop a (format.length + 1) {} 0 format.data with
  | (p, argNum) =>
    if !p.reordered && argNum < a.length then
      p.buf ++ "%!(EXTRA " ++ ", ".intercalate (extraArgs (a.drop argNum)) ++ ")"
    else p.buf

/-- The operand of dynamic type `string`.  Only the verbs `s` and `v` without
flags, width or precision are modelled, which is how the package's format
strings use it; for every other verb the text below is a stand-in on which no
result relies. -/
def stringOperand (s : String) : Operand where
  typeString := some "string"
  intValue := none
  print := fun _ verb =>
    if verb = 's' ∨ verb = 'v' then s
    else "%!" ++ String.singleton verb ++ "(string=" ++ s ++ ")"

/-- The operand of dynamic type `int32` (also `rune`).  Only the verbs `d`,
`v` and `c` without flags, width or precision are modelled; for every other
verb the text below is a stand-in on which no result relies. -/
def int32Operand (n : Int) : Operand where
  typeString := some "int32"
  intValue := some n
  print := fun _ verb =>
    if verb = 'd' ∨ verb = 'v' then toString n
    else if verb = 'c' then
      String.singleton (if 0 ≤ n ∧ n.toNat.isValidChar then Char.ofNat n.toNat else Char.ofNat 0xFFFD)
    else "%!" ++ String.singleton verb ++ "(int32=" ++ toString n ++ ")"

/-- The method `(*pp).Flag`, through which a `Format` method reads the flags
of the printer it is handed as its `fmt.State`. -/
def Flag (s : fmtFlags) (b : Char) : Bool :=
  if b = '-' then s.minus
  else if b = '+' then s.plus || s.plusV
  else if b = '#' then s.sharp || s.sharpV
  else if b = ' ' then s.space
  else if b = '0' then s.zero
  else false

/-! ## The standard library: `strings`, `path`, `strconv`, `runtime` -/

/-- The function `strings.Contains` on character lists. -/
def containsList : List Char → List Char → Bool
  | [], substr => substr.isEmpty
  | c :: cs, substr => substr.isPrefixOf (c :: cs) || containsList cs substr

/-- The function `strings.Contains`. -/
def Contains (s substr : String) : Bool := containsList s.data substr.data

/-- The function `strings.Index(s, sep)` for a one-character separator:
the place of its first occurrence, or -1. -/
def Index (s : List Char) (sep : Char) : Int :=
  if sep ∈ s then (s.indexOf sep : Int) else -1

/-- The function `strings.LastIndex(s, sep)` for a one-character separator:
the place of its last occurrence, or -1. -/
def LastIndex (s : List Char) (sep : Char) : Int :=
  if sep ∈ s then (s.length : Int) - 1 - (s.reverse.indexOf sep : Int) else -1

/-- The function `path.Base`. -/
def Base (path : String) : String :=
  if path = "" then "."
  else
    let stripped := (path.data.reverse.dropWhile (fun c => c == '/')).reverse
    let last := stripped.drop (LastIndex stripped '/' + 1).toNat
    if last.isEmpty then "/" else String.mk last

/-- The function `strconv.IsPrint`: its Latin-1 fast path, and the tables it
consults for the other runes taken as the parameter `table`. -/
def IsPrint (table : Char → Bool) (r : Char) : Bool :=
  if r.toNat ≤ 0xFF then
    if 0x20 ≤ r.toNat ∧ r.toNat ≤ 0x7E then true
    else if 0xA1 ≤ r.toNat ∧ r.toNat ≤ 0xFF then r.toNat != 0xAD
    else false
  else table r

/-- The lower-case hexadecimal digit of a value below 16. -/
def hexDigit (n : Nat) : Char := (Nat.toDigits 16 (n % 16)).headD '0'

/-- The `count` low hexadecimal digits of `n`, most significant first. -/
def hexDigits (n : Nat) : Nat → List Char
  | 0 => []
  | count + 1 => hexDigits (n / 16) count ++ [hexDigit n]

/-- The function `strconv.appendEscapedRune` with the quote `"`, neither
ASCII-only nor graphic-only. -/
def appendEscapedRune (table : Char → Bool) (r : Char) : List Char :=
  if r = '"' ∨ r = '\\' then ['\\', r]
  else if IsPrint table r then [r]
  else if r.toNat = 7 then ['\\', 'a']
  else if r.toNat = 8 then ['\\', 'b']
  else if r.toNat = 12 then ['\\', 'f']
  else if r = '\n' then ['\\', 'n']
  else if r = '\r' then ['\\', 'r']
  else if r = '\t' then ['\\', 't']
  else if r.toNat = 11 then ['\\', 'v']
  else if r.toNat < 0x20 ∨ r.toNat = 0x7F then '\\' :: 'x' :: hexDigits r.toNat 2
  else if r.toNat < 0x10000 then '\\' :: 'u' :: hexDigits r.toNat 4
  else '\\' :: 'U' :: hexDigits r.toNat 8

/-- The function `strconv.Quote`. -/
def Quote (table : Char → Bool) (s : String) : String :=
  String.mk ('"' :: (s.data.flatMap (appendEscapedRune table) ++ ['"']))

/-- The operand of dynamic type `string` with the verb `q` modelled as well,
by `strconv.Quote`. -/
def stringOperandQ (table : Char → Bool) (s : String) : Operand where
  typeString := some "string"
  intValue := none
  print := fun f verb => if verb = 'q' then Quote table s else (stringOperand s).print f verb

/-- A value of type `*runtime.Func`, as far as the package reads it. -/
structure Func where
  Name : String
  FileLine : Nat → String × Int

/-- What the Go runtime and the library tables supply to the package:
`stack skip` is the list of return program counters of the calling
goroutine's stack after `skip` frames, `FuncForPC` is `runtime.FuncForPC`,
and `printTable` stands for the tables of `strconv.IsPrint`. -/
structure Platform where
  stack : Int → List Nat
  FuncForPC : Nat → Option Func
  printTable : Char → Bool

/-- The function `runtime.Callers(skip, pc)` for a buffer of `len` entries:
the entries it fills in. -/
def Callers (pf : Platform) (skip : Int) (len : Nat) : List Nat :=
  (pf.stack skip).take len

/-! ## The package: `stacktrace.go` -/

/-- The constant `defaultStackSkip`. -/
def defaultStackSkip : Int := 3

/-- The package-level variables `content`, `stackSkip` and `traceable`. -/
structure Vars where
  content : String := ""
  stackSkip : Int := defaultStackSkip
  traceable : Bool := false

/-- The function `SetStackSkip`. -/
def SetStackSkip (v : Vars) (skip : Int) : Vars := { v with stackSkip := skip }

/-- The function `SetTraceable`. -/
def SetTraceable (v : Vars) (x : Bool) : Vars := { v with traceable := x }

/-- The type `frame`, a `uintptr`. -/
abbrev frame := Nat

/-- The method `frame.pc`, with the wrap-around of `uintptr`. -/
def frame.pc (f : frame) : Nat := (f + 2 ^ 64 - 1) % 2 ^ 64

/-- The method `frame.name`. -/
def frame.name (pf : Platform) (f : frame) : String :=
  match pf.FuncForPC (frame.pc f) with
  | none => "unknown"
  | some fn => fn.Name

/-- The method `frame.file`. -/
def frame.file (pf : Platform) (f : frame) : String :=
  match pf.FuncForPC (frame.pc f) with
  | none => "unknown"
  | some fn => (fn.FileLine (frame.pc f)).1

/-- The method `frame.line`. -/
def frame.line (pf : Platform) (f : frame) : Int :=
  match pf.FuncForPC (frame.pc f) with
  | none => 0
  | some fn => (fn.FileLine (frame.pc f)).2

/-- The function `funcName`. -/
def funcName (name : String) : String :=
  let i := LastIndex name.data '/'
  let name1 := name.data.drop (i + 1).toNat
  let j := Index name1 '.'
  String.mk (name1.drop (j + 1).toNat)

/-- The method `frame.Format`: the text it writes to the state `s`. -/
def frame.Format (pf : Platform) (f : frame) (s : fmtFlags) (verb : Char) : String :=
  let asS : String :=
    if Flag s '+' then frame.name pf f ++ "\n\t" ++ frame.file pf f
    else Base (frame.file pf f)
  let asD : String := toString (frame.line pf f)
  if verb = 's' then asS
  else if verb = 'd' then asD
  else if verb = 'n' then funcName (frame.name pf f)
  else if verb = 'v' then asS ++ ":" ++ asD
  else ""

/-- A `frame` as an operand of a formatting call: it implements
`fmt.Formatter`, so `printArg` hands the verb to its `Format` method (the
verbs `T` and `p`, which `printArg` keeps for itself, are not modelled). -/
def frameOperand (pf : Platform) (f : frame) : Operand where
  typeString := some "errs.frame"
  intValue := none
  print := fun fl verb => frame.Format pf f fl verb

/-- The type `stackTrace`, a slice of frames: `none` is the nil slice. -/
abbrev stackTrace := Option (List frame)

/-- The function `isOutput`. -/
def isOutput (v : Vars) (str : String) : Bool := Contains str v.content

/-- The method `stackTrace.formatSlice`. -/
def stackTrace.formatSlice (pf : Platform) (st : stackTrace) (s : fmtFlags) (verb : Char) :
    String :=
  "[" ++ " ".intercalate ((st.getD []).map (fun f => frame.Format pf f s verb)) ++ "]"

/-- The loop of `stackTrace.Format` under `%+v`. -/
def stackTrace.formatPlus (pf : Platform) (v : Vars) (s : fmtFlags) (verb : Char) :
    List frame → String
  | [] => ""
  | f :: rest =>
    if !isOutput v (Sprintf "%+v" [frameOperand pf f]) then
      stackTrace.formatPlus pf v s verb rest
    else "\n" ++ frame.Format pf f s verb ++ stackTrace.formatPlus pf v s verb rest

/-- The text `fmt` writes for `[]frame(st)` under `%#v`: the Go-syntax form of
a slice, each element rendered by its own `Format` method. -/
def goSyntaxFrames (pf : Platform) (st : stackTrace) : String :=
  match st with
  | none => "[]errs.frame(nil)"
  | some fs =>
    "[]errs.frame\x7b" ++
      ", ".intercalate (fs.map (fun f => frame.Format pf f { sharpV := true } 'v')) ++ "\x7d"

/-- The method `stackTrace.Format`: the text it writes to the state `s`. -/
def stackTrace.Format (pf : Platform) (v : Vars) (st : stackTrace) (s : fmtFlags) (verb : Char) :
    String :=
  if verb = 'v' then
    if Flag s '+' then stackTrace.formatPlus pf v s verb (st.getD [])
    else if Flag s '#' then goSyntaxFrames pf st
    else stackTrace.formatSlice pf st s verb
  else if verb = 's' then stackTrace.formatSlice pf st s verb
  else ""

/-- The function `callers`: a non-nil slice with one frame for each of the at
most 32 program counters `runtime.Callers` fills in. -/
def callers (pf : Platform) (v : Vars) : stackTrace :=
  some ((Callers pf v.stackSkip 32).map (fun pc => (pc : frame)))

/-! ## The package: `errs.go` -/

/-- The variable `Success`. -/
def Success : String := "success"

/-- The variable `RetOk`. -/
def RetOk : Int := 200

/-- The variable `RetUnknown`. -/
def RetUnknown : Int := 99999

mutual
/-- A value of type `*Error`: the nil pointer, or a pointer to a struct with
the fields `Code`, `Msg`, `Data`, `cause` and `stack`. -/
inductive Error where
  | null : Error
  | ref (Code : Int) (Msg : String) (Data : String) (cause : error) (stack : stackTrace) : Error
/-- A value of the interface type `error`: the nil interface, a `*Error`, or
a value of another error type, given by the text of its `Error()` and by what
`errors.As` can observe of it.
* `ext text unwrap`: its `As` method, if it has one, reports no match for a
  target of type `*Error`, and `unwrap` is the result of its `Unwrap() error`
  (nil when it has no such method).
* `extMulti text unwrap`: the same, with `unwrap` the result of its
  `Unwrap() []error`, as for `errors.Join` or `fmt.Errorf` with several `%w`.
* `extAs text target unwrap`: its `As` method reports a match for a target of
  type `*Error` and stores `target` in it; `unwrap` lists what its `Unwrap`
  method of either kind returns.
An `As` method is taken to follow its contract: it stores a value when it
reports a match and leaves the target alone otherwise.  Error types other
than `*Error` are taken to have no `Format` method, and cause chains are
finite (the package never builds a cyclic one). -/
inductive error where
  | nil : error
  | ptr (e : Error) : error
  | ext (text : String) (unwrap : error) : error
  | extMulti (text : String) (unwrap : errorSlice) : error
  | extAs (text : String) (target : Error) (unwrap : errorSlice) : error
/-- A value of type `[]error`, whose elements may be nil. -/
inductive errorSlice where
  | nil : errorSlice
  | cons (head : error) (tail : errorSlice) : errorSlice
end

/-- The test `err == nil` on an interface value. -/
def error.isNil : error → Bool
  | .nil => true
  | _ => false

/-- The field selector `e.Code`; `none` is the nil-pointer dereference. -/
def Error.Code : Error → Option Int
  | .null => none
  | .ref code _ _ _ _ => some code

/-- The field selector `e.Msg`. -/
def Error.Msg : Error → Option String
  | .null => none
  | .ref _ msg _ _ _ => some msg

/-- The field selector `e.Data`. -/
def Error.Data : Error → Option String
  | .null => none
  | .ref _ _ data _ _ => some data

/-- The field selector `e.cause`. -/
def Error.cause : Error → Option error
  | .null => none
  | .ref _ _ _ cause _ => some cause

/-- The field selector `e.stack`. -/
def Error.stack : Error → Option stackTrace
  | .null => none
  | .ref _ _ _ _ stack => some stack

/-- The method `(*Error).Unwrap`: it reads `e.cause` without a nil check. -/
def Error.Unwrap (e : Error) : Option error := Error.cause e

/-- The type assertion `e.(*Error)`. -/
def error.asError : error → Option Error
  | .ptr p => some p
  | _ => none

mutual
/-- The call `errors.As(err, &e)` for a target `e` of type `*Error`: `none`
when it reports false, otherwise the pointer it stores in the target.  At
each error it first tests the type, then asks the `As` method, then follows
`Unwrap() error`, or tries in order the elements of `Unwrap() []error`. -/
def errorsAs : error → Option Error
  | .nil => none
  | .ptr p => some p
  | .ext _ u => errorsAs u
  | .extMulti _ us => errorsAsSlice us
  | .extAs _ target _ => some target
/-- The loop of `errors.As` over the result of `Unwrap() []error`: nil
elements are skipped and the first element that yields a match decides. -/
def errorsAsSlice : errorSlice → Option Error
  | .nil => none
  | .cons e rest =>
    match errorsAs e with
    | some p => some p
    | none => errorsAsSlice rest
end

mutual
/-- The method `(*Error).Error`. -/
def Error.Error : Error → String
  | .null => Success
  | .ref code msg _ cause _ =>
    match error.Error cause with
    | some causeText =>
      Sprintf "code:%d, msg:%s, caused by %s"
        [int32Operand code, stringOperand msg, stringOperand causeText]
    | none => Sprintf "code: %d, msg: %s" [int32Operand code, stringOperand msg]
/-- The method call `err.Error()` on an interface value: `none` exactly when
`err == nil`. -/
def error.Error : error → Option String
  | .nil => none
  | .ptr p => some (Error.Error p)
  | .ext text _ => some text
  | .extMulti text _ => some text
  | .extAs text _ _ => some text
end

mutual
/-- The method `(*Error).Format`: the text it writes to the state `s`, or
`none` when it panics on a nil-pointer dereference.  The deferred call writes
the stack trace last, after everything the body has written. -/
def Error.Format (pf : Platform) (v : Vars) : Error → fmtFlags → Char → Option String
  | e, s, verb =>
    if verb = 'v' ∧ Flag s '+' = true then
      match e with
      | .null => none
      | .ref code msg _ cause stack =>
        let head := Sprintf "code: %d, msg: %s" [int32Operand code, stringOperand msg]
        let causePart :=
          match cause with
          | .nil => ""
          | .ptr p => Sprintf "\nCause by %+v" [error.operand pf v (.ptr p)]
          | .ext text u => Sprintf "\nCause by %+v" [error.operand pf v (.ext text u)]
          | .extMulti text us =>
            Sprintf "\nCause by %+v" [error.operand pf v (.extMulti text us)]
          | .extAs text target us =>
            Sprintf "\nCause by %+v" [error.operand pf v (.extAs text target us)]
        let deferred :=
          match stack with
          | none => ""
          | some st => stackTrace.Format pf v (some st) s verb
        some (head ++ causePart ++ deferred)
    else if verb = 'v' ∨ verb = 's' then some (Error.Error e)
    else if verb = 'q' then some (Sprintf "%q" [stringOperandQ pf.printTable (Error.Error e)])
    else
      some (Sprintf "%%!%c(errs.Error=%s)"
        [int32Operand (verb.toNat : Int), stringOperand (Error.Error e)])
/-- An `error` value as an operand of a formatting call.  A `*Error`
implements `fmt.Formatter`: `printArg` hands the verb to its `Format` method
and, when that panics on a nil receiver, recovers and writes `<nil>`.  A value
of another error type is rendered by the text of its `Error()`, as `fmt` does
under the verbs `s` and `v`; its type name is a stand-in.  The verbs `T`, `p`
and `w`, which `printArg` keeps for itself, are not modelled. -/
def error.operand (pf : Platform) (v : Vars) : error → Operand
  | .nil =>
    { typeString := none
      intValue := none
      print := fun _ verb =>
        if verb = 'v' ∨ verb = 'T' then "<nil>" else "%!" ++ String.singleton verb ++ "(<nil>)" }
  | .ptr p =>
    { typeString := some "*errs.Error"
      intValue := none
      print := fun fl verb => (Error.Format pf v p fl verb).getD "<nil>" }
  | .ext text _ =>
    { typeString := some "error"
      intValue := none
      print := (stringOperand text).print }
  | .extMulti text _ =>
    { typeString := some "error"
      intValue := none
      print := (stringOperand text).print }
  | .extAs text _ _ =>
    { typeString := some "error"
      intValue := none
      print := (stringOperand text).print }
end

/-- The function `New`. -/
def New (pf : Platform) (v : Vars) (code : Int) (format : String) (params : List Operand) :
    error :=
  let msg := Sprintf format params
  .ptr (.ref code msg "" .nil (if v.traceable then callers pf v else none))

/-- The function `Wrap`. -/
def Wrap (pf : Platform) (v : Vars) (err : error) (code : Int) (msg : String) : error :=
  if err.isNil then .nil
  else
    .ptr (.ref code msg "" err
      (if v.traceable && !(errorsAs err).isSome then callers pf v else none))

/-- The function `Wrapf`. -/
def Wrapf (pf : Platform) (v : Vars) (err : error) (code : Int) (format : String)
    (params : List Operand) : error :=
  if err.isNil then .nil
  else
    let msg := Sprintf format params
    .ptr (.ref code msg "" err
      (if v.traceable && !(errorsAs err).isSome then callers pf v else none))

/-- The pointer left in `err` by `err, ok := e.(*Error)` followed, when `ok`
is false, by `errors.As(e, &err)`; `none` when both report false. -/
def extract (e : error) : Option Error :=
  match e.asError with
  | some p => some p
  | none => errorsAs e

/-- The function `Code`. -/
def Code (e : error) : Int :=
  if e.isNil then RetOk
  else
    match extract e with
    | none => RetUnknown
    | some .null => RetOk
    | some (.ref code _ _ _ _) => code

/-- The function `Msg`; `none` is the panic of `err.Unwrap()` on a nil `err`. -/
def Msg (e : error) : Option String :=
  if e.isNil then some Success
  else
    match extract e with
    | none => some Success
    | some err =>
      match Error.Unwrap err, Error.Msg err with
      | some cause, some msg =>
        if !cause.isNil then
          some (Sprintf "%s: %s" [stringOperand msg, stringOperand (Error.Error err)])
        else some msg
      | _, _ => none

/-! ## The cause chain, in the words of the specification -/

mutual
/-- The values reached from a `*Error` by following `Unwrap`: a nil pointer
has no cause to follow. -/
def Error.causes : Error → List error
  | .null => []
  | .ref _ _ _ cause _ => error.chain cause
/-- The cause chain of an error value: the value itself, then the values
reached from the result of its `Unwrap()`, and so on until nil; where
`Unwrap` returns several errors, the chains of these one after another. -/
def error.chain : error → List error
  | .nil => []
  | .ptr p => .ptr p :: Error.causes p
  | .ext text u => .ext text u :: error.chain u
  | .extMulti text us => .extMulti text us :: errorSlice.chain us
  | .extAs text target us => .extAs text target us :: errorSlice.chain us
/-- The chains of the elements of a slice, one after another. -/
def errorSlice.chain : errorSlice → List error
  | .nil => []
  | .cons e rest => error.chain e ++ errorSlice.chain rest
end

/-- The `*Error` that one error value yields by itself: the value, when it is
a `*Error`, or what its `As` method stores for a target of that type. -/
def error.found : error → Option errs.Error
  | .ptr p => some p
  | .extAs _ target _ => some target
  | _ => none

/-- The first `*Error` that the cause chain yields, the one nearest to the
head, if there is any. -/
def firstError (e : error) : Option Error :=
  ((error.chain e).filterMap error.found).head?

/-! ## Stack traces and function names, in the words of the specification -/

/-- The detailed rendering of a frame: the qualified function name, a newline
and a tab, then the file path, a colon and the line number. -/
def frame.detail (pf : Platform) (f : frame) : String :=
  frame.name pf f ++ "\n\t" ++ frame.file pf f ++ ":" ++ toString (frame.line pf f)

/-- The text made by writing the given texts one after another. -/
def writeAll : List String → String
  | [] => ""
  | x :: xs => x ++ writeAll xs

/-- The text after the last `/`, all of the text when it has none. -/
def afterLastSlash (s : List Char) : List Char :=
  (s.reverse.takeWhile (fun c => c != '/')).reverse

/-- The text after the first `.`, all of the text when it has none. -/
def afterFirstDot (s : List Char) : List Char :=
  if '.' ∈ s then (s.dropWhile (fun c => c != '.')).drop 1 else s

/-- The text after the first `.` that follows the last `/`. -/
def shortName (s : String) : String := String.mk (afterFirstDot (afterLastSlash s.data))

mutual
/-- The detailed rendering of a `*Error` without any frame line: the line
`code: <c>, msg: <m>` and the cause suffix; `<nil>` for a nil pointer. -/
def Error.plainDetail : Error → String
  | .null => "<nil>"
  | .ref c m _ cause _ => "code: " ++ toString c ++ ", msg: " ++ m ++ error.plainCause cause
/-- The cause suffix without any frame line: nothing for no cause, otherwise
`\nCause by ` and the rendering of the cause. -/
def error.plainCause : error → String
  | .nil => ""
  | .ptr p => "\nCause by " ++ Error.plainDetail p
  | .ext t _ => "\nCause by " ++ t
  | .extMulti t _ => "\nCause by " ++ t
  | .extAs t _ _ => "\nCause by " ++ t
end

mutual
/-- No `*Error` reached from this one through its causes, itself included,
carries a captured stack. -/
def Error.noStack : Error → Bool
  | .null => true
  | .ref _ _ _ cause st => st.isNone && error.noStack cause
/-- No `*Error` that the detailed rendering of this error goes through
carries a captured stack; an error of another type is rendered by its text
alone. -/
def error.noStack : error → Bool
  | .nil => true
  | .ptr p => Error.noStack p
  | .ext _ _ => true
  | .extMulti _ _ => true
  | .extAs _ _ _ => true
end

/-! ## Sample values -/

/-- A platform with a three-frame stack and two known functions. -/
def samplePlatform : Platform where
  stack := fun _ => [101, 201, 301]
  FuncForPC := fun pc =>
    if pc = 100 then some ⟨"github.com/x/errs.New", fun _ => ("/src/errs/errs.go", 32)⟩
    else if pc = 200 then some ⟨"main.main", fun _ => ("/src/main.go", 10)⟩
    else none
  printTable := fun _ => false

/-- An error of a type other than `*Error`, with no `Unwrap` result. -/
def sampleExternal : error := .ext "EOF" .nil

/-- The structured error `New(500, "db down")` built without tracing. -/
def sampleStructured : error := .ptr (.ref 500 "db down" "" .nil none)

/-- The package variables after `SetTraceable(true)`. -/
def sampleTracing : Vars := SetTraceable {} true

/-- An error of another type that wraps a structured error. -/
def sampleWrapping : error := .ext "read config" sampleStructured

/-- The state `fmt` hands to a `Format` method under `%+v`. -/
def plusState : fmtFlags := { plusV := true }

/-- The error `errors.Join(New(500, "db down"))`: its `Unwrap() []error`
returns the structured error and its text is the text of that error. -/
def sampleJoined : error :=
  .extMulti "code: 500, msg: db down" (.cons sampleStructured .nil)

/-- An error of another type whose `As` method stores the structured error
`New(503, "busy")` in a target of type `*Error`. -/
def sampleMatching : error :=
  .extAs "busy" (.ref 503 "busy" "" .nil none) .nil

/-! ## Facts about the library model -/

theorem takeWhile_ne_of_not_mem (c : Char) (l : List Char) (h : c ∉ l) :
    l.takeWhile (fun x => x != c) = l := by
  induction l with
  | nil => rfl
  | cons x xs ih =>
    have hx : x ≠ c := fun hxc => h (by simp [hxc])
    have hxs : c ∉ xs := fun hm => h (List.mem_cons_of_mem _ hm)
    have hb : (x != c) = true := by simp [hx]
    rw [List.takeWhile_cons, hb, ih hxs]
    rfl

theorem dropWhile_ne_of_not_mem (c : Char) (l : List Char) (h : c ∉ l) :
    l.dropWhile (fun x => x != c) = [] := by
  induction l with
  | nil => rfl
  | cons x xs ih =>
    have hx : x ≠ c := fun hxc => h (by simp [hxc])
    have hxs : c ∉ xs := fun hm => h (List.mem_cons_of_mem _ hm)
    have hb : (x != c) = true := by simp [hx]
    rw [List.dropWhile_cons, hb]
    exact ih hxs

/-- A format without `%` and without operands is printed as it is. -/
theorem Sprintf_plain (m : String) (h : '%' ∉ m.data) : Sprintf m [] = m := by
  simp [Sprintf, formatLoop, takeWhile_ne_of_not_mem _ _ h, dropWhile_ne_of_not_mem _ _ h]

/-- A `.` at the end of a format is a verb, not the start of a precision. -/
theorem Sprintf_trailing_dot : Sprintf "100%." [] = "100%!.(MISSING)" := by
  decide

/-- The format of `Error()` for an error without cause. -/
theorem Sprintf_code_msg (c : Int) (m : String) :
    Sprintf "code: %d, msg: %s" [int32Operand c, stringOperand m]
      = "code: " ++ toString c ++ ", msg: " ++ m := by
  simp [Sprintf, formatLoop, scanFlags, verbFlags, int32Operand, stringOperand]

/-- The format of `Error()` for an error with a cause. -/
theorem Sprintf_code_msg_cause (c : Int) (m t : String) :
    Sprintf "code:%d, msg:%s, caused by %s" [int32Operand c, stringOperand m, stringOperand t]
      = "code:" ++ toString c ++ ", msg:" ++ m ++ ", caused by " ++ t := by
  simp [Sprintf, formatLoop, scanFlags, verbFlags, int32Operand, stringOperand]

/-- The format of `Msg` for an error with a cause. -/
theorem Sprintf_msg_error (m t : String) :
    Sprintf "%s: %s" [stringOperand m, stringOperand t] = m ++ ": " ++ t := by
  simp [Sprintf, formatLoop, scanFlags, verbFlags, stringOperand]

/-! ## Facts about extraction -/

/-- The type assertion followed by `errors.As` finds what `errors.As` finds. -/
theorem extract_eq_errorsAs (e : error) : extract e = errorsAs e := by
  cases e <;> simp [extract, error.asError, errorsAs]

mutual
/-- The call `errors.As` stores the first `*Error` that the cause chain
yields. -/
theorem errorsAs_eq_firstError : ∀ e : error, errorsAs e = firstError e
  | .nil => rfl
  | .ptr p => by simp [errorsAs, firstError, error.chain, error.found]
  | .ext t u => by
    have ih := errorsAs_eq_firstError u
    simpa [errorsAs, firstError, error.chain, error.found] using ih
  | .extMulti t us => by
    have ih := errorsAsSlice_eq_first us
    simpa [errorsAs, firstError, error.chain, error.found] using ih
  | .extAs t target us => by simp [errorsAs, firstError, error.chain, error.found]
/-- The loop of `errors.As` over a slice stores the first `*Error` that the
chains of its elements yield. -/
theorem errorsAsSlice_eq_first : ∀ us : errorSlice,
    errorsAsSlice us = ((errorSlice.chain us).filterMap error.found).head?
  | .nil => rfl
  | .cons e rest => by
    have h1 := errorsAs_eq_firstError e
    have h2 := errorsAsSlice_eq_first rest
    unfold firstError at h1
    simp only [errorsAsSlice, errorSlice.chain, List.filterMap_append, List.head?_append,
      ← h1, ← h2]
    cases errorsAs e <;> rfl
end

/-- A chain that yields no `*Error` has no first `*Error`. -/
theorem firstError_eq_none (e : error) (h : ∀ x ∈ error.chain e, x.found = none) :
    firstError e = none := by
  unfold firstError
  rw [List.head?_eq_none_iff, List.filterMap_eq_nil_iff]
  exact h

/-! ## The claims -/

/-- Claim C1: for every code, every format string and every argument list,
`Code` of the error built by `New` is that code, and `New` never returns the
nil error. -/
theorem Code_New (pf : Platform) (v : Vars) (c : Int) (format : String)
    (params : List Operand) :
    Code (New pf v c format params) = c ∧ (New pf v c format params).isNil = false := by
  simp [New, Code, error.isNil, extract, error.asError]

/-- Claim C2, as stated, fails: the message text is used as a format, so a
text that contains `%` is rewritten by `fmt.Sprintf`.  For the text `100%`
the message of the new error is `100%!(NOVERB)`. -/
theorem Msg_New_percent :
    Msg (New samplePlatform {} 400 "100%" []) = some "100%!(NOVERB)" ∧
    Msg (New samplePlatform {} 400 "100%" []) ≠ some "100%" := by
  constructor <;> decide

/-- Claim C2, amended: for every code and every message text that contains no
`%`, passed as the format with no arguments, `Msg` of the error built by `New`
is that text unchanged. -/
theorem Msg_New_plain (pf : Platform) (v : Vars) (c : Int) (m : String)
    (h : '%' ∉ m.data) : Msg (New pf v c m []) = some m := by
  simp [New, Msg, error.isNil, extract, error.asError, Error.Unwrap, Error.cause, Error.Msg,
    Sprintf_plain m h]

/-- Claim C2, amended, at the text `not found`. -/
theorem Msg_New_plain_witness :
    '%' ∉ "not found".data ∧
    Msg (New samplePlatform {} 404 "not found" []) = some "not found" :=
  ⟨by decide, Msg_New_plain samplePlatform {} 404 "not found" (by decide)⟩

/-- Claim C3: `Wrap` and `Wrapf` return the nil error for a nil error, for
every code, message, format string and argument list. -/
theorem Wrap_nil (pf : Platform) (v : Vars) (c : Int) (m format : String)
    (params : List Operand) :
    Wrap pf v .nil c m = .nil ∧ Wrapf pf v .nil c format params = .nil := by
  simp [Wrap, Wrapf, error.isNil]

/-- Claim C4: for every non-nil error, `Wrap` and `Wrapf` return a non-nil
`*Error` whose `Unwrap()` is that error. -/
theorem Unwrap_Wrap (pf : Platform) (v : Vars) (err : error) (c : Int) (m format : String)
    (params : List Operand) (h : err.isNil = false) :
    (∃ p, Wrap pf v err c m = .ptr p ∧ p ≠ .null ∧ Error.Unwrap p = some err) ∧
    (∃ p, Wrapf pf v err c format params = .ptr p ∧ p ≠ .null ∧
      Error.Unwrap p = some err) := by
  constructor
  · refine ⟨.ref c m "" err
      (if v.traceable && !(errorsAs err).isSome then callers pf v else none), ?_, ?_, ?_⟩
    · simp [Wrap, h]
    · simp
    · simp [Error.Unwrap, Error.cause]
  · refine ⟨.ref c (Sprintf format params) "" err
      (if v.traceable && !(errorsAs err).isSome then callers pf v else none), ?_, ?_, ?_⟩
    · simp [Wrapf, h]
    · simp
    · simp [Error.Unwrap, Error.cause]

/-- Claim C4 at an error of another type. -/
theorem Unwrap_Wrap_witness :
    sampleExternal.isNil = false ∧
    (∃ p, Wrap samplePlatform {} sampleExternal 502 "upstream failed" = .ptr p ∧ p ≠ .null ∧
      Error.Unwrap p = some sampleExternal) ∧
    (∃ p, Wrapf samplePlatform {} sampleExternal 502 "upstream %s" [stringOperand "failed"]
        = .ptr p ∧ p ≠ .null ∧ Error.Unwrap p = some sampleExternal) :=
  ⟨rfl, Unwrap_Wrap samplePlatform {} sampleExternal 502 "upstream failed" "upstream %s"
    [stringOperand "failed"] rfl⟩

/-- Claim C5, as stated, fails: an error of another type that wraps a `*Error`
is not itself a `*Error`, yet `Code` and `Msg` extract the wrapped one, so the
results are its code and its message, not `RetUnknown` and `"success"`.  The
same holds for `errors.Join` of a `*Error` and for an error whose `As` method
yields a `*Error`. -/
theorem Code_external_wrapping :
    (error.ext "read config" sampleStructured).isNil = false ∧
    (error.ext "read config" sampleStructured).asError = none ∧
    Code (error.ext "read config" sampleStructured) = 500 ∧
    Code (error.ext "read config" sampleStructured) ≠ RetUnknown ∧
    Msg (error.ext "read config" sampleStructured) = some "db down" ∧
    Msg (error.ext "read config" sampleStructured) ≠ some "success" ∧
    sampleJoined.asError = none ∧ Code sampleJoined = 500 ∧
    Msg sampleJoined = some "db down" ∧
    sampleMatching.asError = none ∧ Code sampleMatching = 503 ∧
    Msg sampleMatching = some "busy" := by
  refine ⟨rfl, rfl, ?_, ?_, ?_, ?_, rfl, ?_, ?_, rfl, ?_, ?_⟩ <;> decide

/-- Claim C5, amended: `Code(nil)` is `RetOk`, which is 200, and `Msg(nil)` is
`"success"`; for every non-nil error whose cause chain yields no `*Error` at
all, that is when neither the error nor any error reached from it through
`Unwrap() error` or `Unwrap() []error` is a `*Error` or has an `As` method
that reports a match for a `*Error` target, `Code` is `RetUnknown`, which is
99999, and `Msg` is `"success"`. -/
theorem Code_Msg_unstructured :
    Code .nil = RetOk ∧ RetOk = 200 ∧ Msg .nil = some "success" ∧
    ∀ e : error, e.isNil = false → (∀ x ∈ error.chain e, x.found = none) →
      Code e = RetUnknown ∧ RetUnknown = 99999 ∧ Msg e = some "success" := by
  refine ⟨rfl, rfl, rfl, ?_⟩
  intro e hnil hchain
  have hx : extract e = none := by
    rw [extract_eq_errorsAs, errorsAs_eq_firstError]
    exact firstError_eq_none e hchain
  simp [Code, Msg, hnil, hx, Success, RetUnknown]

/-- Claim C5, amended, at an error of another type with no cause. -/
theorem Code_Msg_unstructured_witness :
    sampleExternal.isNil = false ∧ (∀ x ∈ error.chain sampleExternal, x.found = none) ∧
    Code sampleExternal = RetUnknown ∧ RetUnknown = 99999 ∧
    Msg sampleExternal = some "success" :=
  have hchain : ∀ x ∈ error.chain sampleExternal, x.found = none := by
    intro x hx
    simp [sampleExternal, error.chain] at hx
    subst hx
    rfl
  ⟨rfl, hchain, Code_Msg_unstructured.2.2.2 sampleExternal rfl hchain⟩

/-- Claim C6, as stated, fails in both of its parts.  When the first `*Error`
of the chain carries the code 99999, `Code` is `RetUnknown` although the chain
holds a `*Error`; and when the first `*Error` of the chain is a nil pointer,
which has no `Code` field, `Code` is `RetOk`. -/
theorem Code_chain_counter :
    (error.ext "wrapped" (.ptr (.ref 99999 "quota" "" .nil none))).isNil = false ∧
    (error.ext "wrapped" (.ptr (.ref 99999 "quota" "" .nil none))).asError = none ∧
    (firstError (.ext "wrapped" (.ptr (.ref 99999 "quota" "" .nil none)))).isSome = true ∧
    Code (.ext "wrapped" (.ptr (.ref 99999 "quota" "" .nil none))) = RetUnknown ∧
    firstError (.ext "wrapped" (.ptr .null)) = some .null ∧
    Error.Code .null = none ∧
    Code (.ext "wrapped" (.ptr .null)) = RetOk := by
  refine ⟨rfl, rfl, rfl, ?_, rfl, rfl, ?_⟩ <;> decide

/-- Claim C6, amended: for every non-nil error that is not itself a `*Error`,
`Code` is decided by the first `*Error` that its cause chain yields, going
through the error and the errors reached from it by `Unwrap() error` and
`Unwrap() []error`, where an error yields a `*Error` when it is one or when
its `As` method stores one: `Code` is the `Code` field of that `*Error` when
it is a non-nil pointer, `RetOk` when it is a nil pointer, and `RetUnknown`
when the chain yields no `*Error` at all. -/
theorem Code_chain (e : error) (hnil : e.isNil = false) (_hself : e.asError = none) :
    (∀ c m d cause st, firstError e = some (.ref c m d cause st) → Code e = c) ∧
    (firstError e = some .null → Code e = RetOk) ∧
    (firstError e = none → Code e = RetUnknown) := by
  have hx : extract e = firstError e := by
    rw [extract_eq_errorsAs, errorsAs_eq_firstError]
  refine ⟨?_, ?_, ?_⟩
  · intro c m d cause st h
    simp [Code, hnil, hx, h]
  · intro h
    simp [Code, hnil, hx, h]
  · intro h
    simp [Code, hnil, hx, h]

/-- Claim C6, amended, at an error of another type that wraps a `*Error`, at
`errors.Join` of a `*Error`, and at an error whose `As` method yields one. -/
theorem Code_chain_witness :
    (error.ext "read config" sampleStructured).isNil = false ∧
    (error.ext "read config" sampleStructured).asError = none ∧
    firstError (.ext "read config" sampleStructured) = some (.ref 500 "db down" "" .nil none) ∧
    Code (.ext "read config" sampleStructured) = 500 ∧
    sampleJoined.isNil = false ∧ sampleJoined.asError = none ∧
    firstError sampleJoined = some (.ref 500 "db down" "" .nil none) ∧
    Code sampleJoined = 500 ∧
    sampleMatching.isNil = false ∧ sampleMatching.asError = none ∧
    firstError sampleMatching = some (.ref 503 "busy" "" .nil none) ∧
    Code sampleMatching = 503 :=
  ⟨rfl, rfl, rfl,
    (Code_chain (.ext "read config" sampleStructured) rfl rfl).1 500 "db down" "" .nil none rfl,
    rfl, rfl, rfl, (Code_chain sampleJoined rfl rfl).1 500 "db down" "" .nil none rfl,
    rfl, rfl, rfl, (Code_chain sampleMatching rfl rfl).1 503 "busy" "" .nil none rfl⟩

/-- Claim C7: for every non-nil error, code and message, `Code` of the result
of `Wrap` is the code given to `Wrap`, whatever the wrapped chain carries. -/
theorem Code_Wrap (pf : Platform) (v : Vars) (err : error) (c : Int) (m : String)
    (h : err.isNil = false) : Code (Wrap pf v err c m) = c := by
  have hw : Wrap pf v err c m = .ptr (.ref c m "" err
      (if v.traceable && !(errorsAs err).isSome then callers pf v else none)) := by
    simp [Wrap, h]
  rw [hw]
  simp [Code, error.isNil, extract, error.asError]

/-- Claim C7 at a wrapped `*Error` that carries another code. -/
theorem Code_Wrap_witness :
    sampleStructured.isNil = false ∧
    Code sampleStructured = 500 ∧
    Code (Wrap samplePlatform {} sampleStructured 502 "upstream failed") = 502 :=
  ⟨rfl, by decide, Code_Wrap samplePlatform {} sampleStructured 502 "upstream failed" rfl⟩

/-- Claim C8: `Error()` on a non-nil `*Error` with code `c` and message `m`
is `code: <c>, msg: <m>` when it has no cause, and `code:<c>, msg:<m>, caused
by ` followed by the `Error()` text of the cause when it has one (the text of
the wrapped `*Error`, rendered in the same way, or the text of an error of
another type, whatever its `Unwrap` and `As` methods); the two examples of the
specification come out as written. -/
theorem Error_text :
    (∀ (c : Int) (m d : String) (st : stackTrace),
      Error.Error (.ref c m d .nil st) = "code: " ++ toString c ++ ", msg: " ++ m) ∧
    (∀ (c : Int) (m d : String) (st : stackTrace) (p : Error),
      Error.Error (.ref c m d (.ptr p) st)
        = "code:" ++ toString c ++ ", msg:" ++ m ++ ", caused by " ++ Error.Error p) ∧
    (∀ (c : Int) (m d : String) (st : stackTrace) (t : String) (u : error),
      Error.Error (.ref c m d (.ext t u) st)
        = "code:" ++ toString c ++ ", msg:" ++ m ++ ", caused by " ++ t) ∧
    (∀ (c : Int) (m d : String) (st : stackTrace) (t : String) (us : errorSlice),
      Error.Error (.ref c m d (.extMulti t us) st)
        = "code:" ++ toString c ++ ", msg:" ++ m ++ ", caused by " ++ t) ∧
    (∀ (c : Int) (m d : String) (st : stackTrace) (t : String) (p : Error) (us : errorSlice),
      Error.Error (.ref c m d (.extAs t p us) st)
        = "code:" ++ toString c ++ ", msg:" ++ m ++ ", caused by " ++ t) ∧
    (∀ (pf : Platform) (v : Vars),
      error.Error (New pf v 404 "not found" []) = some "code: 404, msg: not found") ∧
    (∀ (pf : Platform) (v : Vars),
      error.Error (Wrap pf v (New pf v 500 "db down" []) 502 "upstream failed")
        = some "code:502, msg:upstream failed, caused by code: 500, msg: db down") := by
  refine ⟨?_, ?_, ?_, ?_, ?_, ?_, ?_⟩
  · intro c m d st
    simp only [Error.Error, error.Error, Sprintf_code_msg]
  · intro c m d st p
    simp only [Error.Error, error.Error, Sprintf_code_msg_cause]
  · intro c m d st t u
    simp only [Error.Error, error.Error, Sprintf_code_msg_cause]
  · intro c m d st t us
    simp only [Error.Error, error.Error, Sprintf_code_msg_cause]
  · intro c m d st t p us
    simp only [Error.Error, error.Error, Sprintf_code_msg_cause]
  · intro pf v
    rfl
  · intro pf v
    rfl

/-- Claim C9: for every `*Error` that has a cause, `Msg` is its message, then
`: `, then its own full `Error()` text, so the message appears twice; the
example of the claim comes out as written. -/
theorem Msg_with_cause :
    (∀ (c : Int) (m d : String) (cause : error) (st : stackTrace), cause.isNil = false →
      Msg (.ptr (.ref c m d cause st))
        = some (m ++ ": " ++ Error.Error (.ref c m d cause st))) ∧
    (∀ (pf : Platform) (v : Vars),
      Msg (Wrap pf v (New pf v 500 "db down" []) 502 "upstream failed")
        = some ("upstream failed: code:502, msg:upstream failed, " ++
            "caused by code: 500, msg: db down")) := by
  refine ⟨?_, fun _ _ => rfl⟩
  intro c m d cause st h
  cases cause with
  | nil => simp [error.isNil] at h
  | ptr p =>
    simp [Msg, error.isNil, extract, error.asError, Error.Unwrap, Error.cause, Error.Msg,
      Sprintf_msg_error]
  | ext t u =>
    simp [Msg, error.isNil, extract, error.asError, Error.Unwrap, Error.cause, Error.Msg,
      Sprintf_msg_error]
  | extMulti t us =>
    simp [Msg, error.isNil, extract, error.asError, Error.Unwrap, Error.cause, Error.Msg,
      Sprintf_msg_error]
  | extAs t p us =>
    simp [Msg, error.isNil, extract, error.asError, Error.Unwrap, Error.cause, Error.Msg,
      Sprintf_msg_error]

/-- Claim C9 at the example of the claim. -/
theorem Msg_with_cause_witness :
    sampleStructured.isNil = false ∧
    Msg (.ptr (.ref 502 "upstream failed" "" sampleStructured none))
      = some ("upstream failed" ++ ": " ++
          Error.Error (.ref 502 "upstream failed" "" sampleStructured none)) ∧
    Error.Error (.ref 502 "upstream failed" "" sampleStructured none)
      = "code:502, msg:upstream failed, caused by code: 500, msg: db down" :=
  ⟨rfl, Msg_with_cause.1 502 "upstream failed" "" sampleStructured none rfl, by decide⟩

/-- Claim C10 at the failing input, a nil `*Error`: `Error()` is `"success"`
and the verbs `s`, `v`, `q` and an unrecognised verb render from that text,
but `Format` under `%+v` reads `e.Code` before any nil check and panics; `fmt`
recovers that panic and prints `<nil>`, not the success text. -/
theorem Format_nil_receiver (pf : Platform) (v : Vars) :
    Error.Error .null = "success" ∧
    Error.Format pf v .null {} 's' = some "success" ∧
    Error.Format pf v .null {} 'v' = some "success" ∧
    Error.Format pf v .null {} 'q' = some "\"success\"" ∧
    Error.Format pf v .null {} 'd' = some "%!d(errs.Error=success)" ∧
    Error.Format pf v .null { plusV := true } 'v' = none ∧
    Sprintf "%+v" [error.operand pf v (.ptr .null)] = "<nil>" := by
  exact ⟨rfl, rfl, rfl, rfl, rfl, rfl, rfl⟩

/-! ## Facts used by the claims on rendering -/

/-- The directive `%+v` prints its operand under the verb `v` with the
plus flag moved to `plusV`. -/
theorem Sprintf_plus_v (op : Operand) :
    Sprintf "%+v" [op] = op.print { plusV := true } 'v' := by
  simp [Sprintf, formatLoop, scanFlags, verbFlags]

/-- The format of the cause line. -/
theorem Sprintf_cause (op : Operand) :
    Sprintf "\nCause by %+v" [op] = "\nCause by " ++ Sprintf "%+v" [op] := by
  simp [Sprintf, formatLoop, scanFlags, verbFlags]

/-- The directive `%q` on a string. -/
theorem Sprintf_q (table : Char → Bool) (t : String) :
    Sprintf "%q" [stringOperandQ table t] = Quote table t := by
  simp [Sprintf, formatLoop, scanFlags, verbFlags, stringOperandQ]

/-- The format of the unknown-verb branch of `Format`. -/
theorem Sprintf_bad_verb (r : Char) (t : String) :
    Sprintf "%%!%c(errs.Error=%s)" [int32Operand (r.toNat : Int), stringOperand t]
      = "%!" ++ String.singleton r ++ "(errs.Error=" ++ t ++ ")" := by
  have h : r.toNat.isValidChar := r.valid
  simp [h, Sprintf, formatLoop, scanFlags, verbFlags, int32Operand, stringOperand, argNumber,
    scanWidth, scanPrec, parsenum, parsenumLoop]

/-- A frame printed with `%+v`. -/
theorem Sprintf_frame (pf : Platform) (f : frame) :
    Sprintf "%+v" [frameOperand pf f] = frame.detail pf f := by
  rw [Sprintf_plus_v]
  simp [frameOperand, frame.Format, Flag, frame.detail]

/-- The method `frame.Format` under the verb `v` with the plus flag. -/
theorem frame_Format_plus (pf : Platform) (f : frame) (s : fmtFlags) (h : Flag s '+' = true) :
    frame.Format pf f s 'v' = frame.detail pf f := by
  simp [frame.Format, h, frame.detail]

/-- The loop of `stackTrace.Format` under `%+v` keeps the frames whose
detailed rendering contains `content` and writes each after a newline. -/
theorem formatPlus_eq (pf : Platform) (v : Vars) (s : fmtFlags) (h : Flag s '+' = true)
    (fs : List frame) :
    stackTrace.formatPlus pf v s 'v' fs
      = writeAll ((fs.filter (fun f => Contains (frame.detail pf f) v.content)).map
          (fun f => "\n" ++ frame.detail pf f)) := by
  induction fs with
  | nil => rfl
  | cons f rest ih =>
    simp only [stackTrace.formatPlus, isOutput, Sprintf_frame, frame_Format_plus pf f s h, ih]
    cases hc : Contains (frame.detail pf f) v.content <;>
      simp [List.filter, hc, writeAll, String.append_assoc]

/-- The value `Wrap` builds for a non-nil error. -/
theorem Wrap_of_not_nil (pf : Platform) (v : Vars) (err : error) (c : Int) (m : String)
    (h : err.isNil = false) :
    Wrap pf v err c m = .ptr (.ref c m "" err
      (if v.traceable && !(errorsAs err).isSome then callers pf v else none)) := by
  simp [Wrap, h]

/-- The detailed rendering of a non-nil `*Error`, part by part. -/
theorem Format_plus_eq (pf : Platform) (v : Vars) (c : Int) (m d : String) (cause : error)
    (st : stackTrace) (s : fmtFlags) (h : Flag s '+' = true) :
    Error.Format pf v (.ref c m d cause st) s 'v'
      = some ("code: " ++ toString c ++ ", msg: " ++ m
          ++ (if cause.isNil then "" else "\nCause by " ++ Sprintf "%+v" [error.operand pf v cause])
          ++ (match st with
              | none => ""
              | some fs => stackTrace.formatPlus pf v s 'v' fs)) := by
  cases cause <;> cases st <;>
    simp [Error.Format, h, Sprintf_code_msg, Sprintf_cause, error.isNil, stackTrace.Format]

/-- The method `Format` outside its detailed branch. -/
theorem Format_not_plus (pf : Platform) (v : Vars) (s : fmtFlags) (r : Char)
    (h : ¬ (r = 'v' ∧ Flag s '+' = true)) : ∀ e : Error,
    Error.Format pf v e s r
      = if r = 'v' ∨ r = 's' then some (Error.Error e)
        else if r = 'q' then some (Sprintf "%q" [stringOperandQ pf.printTable (Error.Error e)])
        else some (Sprintf "%%!%c(errs.Error=%s)"
          [int32Operand (r.toNat : Int), stringOperand (Error.Error e)])
  | .null => by simp [Error.Format, h]
  | .ref c m d .nil st => by simp [Error.Format, h]
  | .ref c m d (.ptr p) st => by simp [Error.Format, h]
  | .ref c m d (.ext t u) st => by simp [Error.Format, h]
  | .ref c m d (.extMulti t us) st => by simp [Error.Format, h]
  | .ref c m d (.extAs t p us) st => by simp [Error.Format, h]

/-! ## The claims on rendering -/

/-- Claim C11, as stated, fails: the stack trace is written by a deferred
call, so it comes after the cause.  For an error of another type wrapped with
tracing enabled, the frame lines follow `Cause by EOF`. -/
theorem Format_stack_after_cause :
    Sprintf "%+v" [error.operand samplePlatform sampleTracing
        (Wrap samplePlatform sampleTracing sampleExternal 502 "upstream failed")]
      = "code: 502, msg: upstream failed\nCause by EOF" ++
        "\ngithub.com/x/errs.New\n\t/src/errs/errs.go:32" ++
        "\nmain.main\n\t/src/main.go:10\nunknown\n\tunknown:0" ∧
    Sprintf "%+v" [error.operand samplePlatform sampleTracing
        (Wrap samplePlatform sampleTracing sampleExternal 502 "upstream failed")]
      ≠ "code: 502, msg: upstream failed" ++
        "\ngithub.com/x/errs.New\n\t/src/errs/errs.go:32" ++
        "\nmain.main\n\t/src/main.go:10\nunknown\n\tunknown:0" ++ "\nCause by EOF" := by
  constructor
  · rfl
  · decide

/-- Claim C11, amended: the detailed rendering of a non-nil `*Error` writes, in
this order, `code: <c>, msg: <m>`, then `\nCause by ` and the cause rendered
with `%+v` when a cause exists, then the captured stack trace in its detailed
form when a stack was captured; so the frame lines of an error follow its
cause text. -/
theorem Format_detailed_order (pf : Platform) (v : Vars) (c : Int) (m d : String)
    (cause : error) (st : stackTrace) (s : fmtFlags) (h : Flag s '+' = true) :
    Error.Format pf v (.ref c m d cause st) s 'v'
      = some ("code: " ++ toString c ++ ", msg: " ++ m
          ++ (if cause.isNil then "" else "\nCause by " ++ Sprintf "%+v" [error.operand pf v cause])
          ++ (match st with
              | none => ""
              | some fs => stackTrace.Format pf v (some fs) s 'v')) := by
  rw [Format_plus_eq pf v c m d cause st s h]
  cases st <;> simp [stackTrace.Format, h]

/-- Claim C11, amended, at a wrapper with one captured frame and a cause. -/
theorem Format_detailed_order_witness :
    Flag plusState '+' = true ∧
    Error.Format samplePlatform {} (.ref 502 "upstream failed" "" sampleExternal (some [201]))
        plusState 'v'
      = some "code: 502, msg: upstream failed\nCause by EOF\nmain.main\n\t/src/main.go:10" :=
  ⟨rfl, (Format_detailed_order samplePlatform {} 502 "upstream failed" "" sampleExternal
    (some [201]) plusState rfl).trans rfl⟩

/-- Claim C12, as stated, fails: the text written for an unrecognised verb
names the type as `errs.Error`, not `Error`. -/
theorem Format_bad_verb_text :
    Error.Format samplePlatform {} (.ref 404 "not found" "" .nil none) {} 'd'
      = some "%!d(errs.Error=code: 404, msg: not found)" ∧
    Error.Format samplePlatform {} (.ref 404 "not found" "" .nil none) {} 'd'
      ≠ some ("%!" ++ String.singleton 'd' ++ "(Error="
          ++ Error.Error (.ref 404 "not found" "" .nil none) ++ ")") := by
  constructor
  · rfl
  · decide

/-- Claim C12, amended: for every `*Error` and every verb other than `s`, `q`
and `v`, `Format` writes `%!`, the verb, `(errs.Error=`, the `Error()` text
and `)`. -/
theorem Format_bad_verb (pf : Platform) (v : Vars) (e : Error) (s : fmtFlags) (r : Char)
    (hs : r ≠ 's') (hq : r ≠ 'q') (hv : r ≠ 'v') :
    Error.Format pf v e s r
      = some ("%!" ++ String.singleton r ++ "(errs.Error=" ++ Error.Error e ++ ")") := by
  rw [Format_not_plus pf v s r (fun h => hv h.1)]
  simp [hs, hq, hv, Sprintf_bad_verb]

/-- Claim C12, amended, at the verb `d`. -/
theorem Format_bad_verb_witness :
    'd' ≠ 's' ∧ 'd' ≠ 'q' ∧ 'd' ≠ 'v' ∧
    Error.Format samplePlatform {} (.ref 404 "not found" "" .nil none) {} 'd'
      = some "%!d(errs.Error=code: 404, msg: not found)" :=
  ⟨by decide, by decide, by decide,
    (Format_bad_verb samplePlatform {} (.ref 404 "not found" "" .nil none) {} 'd'
      (by decide) (by decide) (by decide)).trans rfl⟩

/-- Claim C13: for every `*Error`, `Format` under `%s`, and under `%v` without
the plus flag, writes exactly the `Error()` text, with no stack frames even
when a stack was captured; under `%q` it writes the `Error()` text as a
double-quoted, escaped string literal, as in the examples, where a quote, a
newline, a control character, a rune that is not printable and a backslash
are escaped. -/
theorem Format_plain :
    (∀ (pf : Platform) (v : Vars) (e : Error) (s : fmtFlags),
      Error.Format pf v e s 's' = some (Error.Error e)) ∧
    (∀ (pf : Platform) (v : Vars) (e : Error) (s : fmtFlags), Flag s '+' = false →
      Error.Format pf v e s 'v' = some (Error.Error e)) ∧
    (∀ (pf : Platform) (v : Vars) (e : Error) (s : fmtFlags),
      Error.Format pf v e s 'q' = some (Quote pf.printTable (Error.Error e))) ∧
    (∀ (pf : Platform) (v : Vars),
      Error.Format pf v (.ref 1 "a\"b\n" "" .nil (some [101, 201])) {} 'q'
        = some "\"code: 1, msg: a\\\"b\\n\"") ∧
    (∀ (pf : Platform) (v : Vars),
      Error.Format pf v (.ref 1 "a\x01\u0085\\" "" .nil none) {} 'q'
        = some "\"code: 1, msg: a\\x01\\u0085\\\\\"") := by
  refine ⟨?_, ?_, ?_, fun _ _ => rfl, fun _ _ => rfl⟩
  · intro pf v e s
    rw [Format_not_plus pf v s 's' (fun h => absurd h.1 (by decide))]
    simp
  · intro pf v e s h
    rw [Format_not_plus pf v s 'v' (by simp [h])]
    simp
  · intro pf v e s
    rw [Format_not_plus pf v s 'q' (fun h => absurd h.1 (by decide))]
    simp [Sprintf_q]

/-- Claim C13 at an error that carries a captured stack. -/
theorem Format_plain_witness :
    Flag {} '+' = false ∧
    Error.Format samplePlatform {} (.ref 404 "not found" "" .nil (some [101, 201])) {} 'v'
      = some "code: 404, msg: not found" :=
  ⟨rfl, (Format_plain.2.1 samplePlatform {} (.ref 404 "not found" "" .nil (some [101, 201]))
    {} rfl).trans rfl⟩

/-! ## The claims on stack capture -/

/-- The `%+v` rendering of a non-nil `*Error` held in an `error`. -/
theorem detail_ref (pf : Platform) (v : Vars) (c : Int) (m d : String) (cause : error)
    (st : stackTrace) :
    Sprintf "%+v" [error.operand pf v (.ptr (.ref c m d cause st))]
      = "code: " ++ toString c ++ ", msg: " ++ m
          ++ (if cause.isNil then "" else "\nCause by " ++ Sprintf "%+v" [error.operand pf v cause])
          ++ (match st with
              | none => ""
              | some fs => stackTrace.formatPlus pf v { plusV := true } 'v' fs) := by
  rw [Sprintf_plus_v]
  simp only [error.operand]
  rw [Format_plus_eq pf v c m d cause st { plusV := true } rfl]
  rfl

/-- The `%+v` rendering of an error of another type is its text. -/
theorem detail_ext (pf : Platform) (v : Vars) (t : String) (u : error) :
    Sprintf "%+v" [error.operand pf v (.ext t u)] = t := by
  rw [Sprintf_plus_v]
  simp [error.operand, stringOperand]

theorem detail_extMulti (pf : Platform) (v : Vars) (t : String) (us : errorSlice) :
    Sprintf "%+v" [error.operand pf v (.extMulti t us)] = t := by
  rw [Sprintf_plus_v]
  simp [error.operand, stringOperand]

theorem detail_extAs (pf : Platform) (v : Vars) (t : String) (p : Error) (us : errorSlice) :
    Sprintf "%+v" [error.operand pf v (.extAs t p us)] = t := by
  rw [Sprintf_plus_v]
  simp [error.operand, stringOperand]

/-- Without a captured stack anywhere on the chain, the `%+v` rendering has
no frame line. -/
theorem detail_noStack (pf : Platform) (v : Vars) : ∀ p : Error, Error.noStack p = true →
    Sprintf "%+v" [error.operand pf v (.ptr p)] = Error.plainDetail p
  | .null, _ => rfl
  | .ref c m d .nil st, h => by
    simp [Error.noStack] at h
    rw [detail_ref, h.1]
    simp [error.isNil, Error.plainDetail, error.plainCause]
  | .ref c m d (.ext t u) st, h => by
    simp [Error.noStack] at h
    rw [detail_ref, h.1, detail_ext]
    simp [error.isNil, Error.plainDetail, error.plainCause, String.append_assoc]
  | .ref c m d (.extMulti t us) st, h => by
    simp [Error.noStack] at h
    rw [detail_ref, h.1, detail_extMulti]
    simp [error.isNil, Error.plainDetail, error.plainCause, String.append_assoc]
  | .ref c m d (.extAs t p us) st, h => by
    simp [Error.noStack] at h
    rw [detail_ref, h.1, detail_extAs]
    simp [error.isNil, Error.plainDetail, error.plainCause, String.append_assoc]
  | .ref c m d (.ptr q) st, h => by
    simp [Error.noStack, error.noStack] at h
    rw [detail_ref, h.1, detail_noStack pf v q h.2]
    simp [error.isNil, Error.plainDetail, error.plainCause, String.append_assoc]

/-- Claim C14, as stated, fails: `errors.As` follows the `Unwrap` chain, so an
error of another type that wraps a `*Error` further down gets no stack when it
is wrapped with tracing enabled; nor does `errors.Join` of a `*Error`, nor an
error whose `As` method yields one. -/
theorem Wrap_wrapping_no_stack :
    sampleTracing.traceable = true ∧
    sampleWrapping.isNil = false ∧
    sampleWrapping.asError = none ∧
    Wrap samplePlatform sampleTracing sampleWrapping 502 "upstream failed"
      = .ptr (.ref 502 "upstream failed" "" sampleWrapping none) ∧
    Wrapf samplePlatform sampleTracing sampleWrapping 502 "upstream %s" [stringOperand "failed"]
      = .ptr (.ref 502 "upstream failed" "" sampleWrapping none) ∧
    sampleJoined.asError = none ∧
    Wrap samplePlatform sampleTracing sampleJoined 502 "upstream failed"
      = .ptr (.ref 502 "upstream failed" "" sampleJoined none) ∧
    sampleMatching.asError = none ∧
    Wrap samplePlatform sampleTracing sampleMatching 502 "upstream failed"
      = .ptr (.ref 502 "upstream failed" "" sampleMatching none) :=
  ⟨rfl, rfl, rfl, rfl, rfl, rfl, rfl, rfl, rfl⟩

/-- Claim C14, amended: with tracing enabled, for every non-nil error, the
wrapper returned by `Wrap` and by `Wrapf` carries a captured stack exactly
when the cause chain of the error yields no `*Error`, that is when neither
the error nor any error reached from it through `Unwrap() error` or
`Unwrap() []error` is a `*Error` or has an `As` method that reports a match
for a `*Error` target: then it carries the one stack that `callers` returns,
which is never the nil slice; when the chain yields a `*Error`, the wrapper
carries none. -/
theorem Wrap_stack (pf : Platform) (v : Vars) (err : error) (c : Int) (m format : String)
    (params : List Operand) (ht : v.traceable = true) (hn : err.isNil = false) :
    (callers pf v).isSome = true ∧
    (firstError err = none →
      Wrap pf v err c m = .ptr (.ref c m "" err (callers pf v)) ∧
      Wrapf pf v err c format params
        = .ptr (.ref c (Sprintf format params) "" err (callers pf v))) ∧
    (firstError err ≠ none →
      Wrap pf v err c m = .ptr (.ref c m "" err none) ∧
      Wrapf pf v err c format params = .ptr (.ref c (Sprintf format params) "" err none)) := by
  refine ⟨rfl, ?_, ?_⟩
  · intro h
    have ha : errorsAs err = none := by rw [errorsAs_eq_firstError, h]
    simp [Wrap, Wrapf, hn, ht, ha]
  · intro h
    have ha : (errorsAs err).isSome = true := by
      rw [errorsAs_eq_firstError]
      cases hf : firstError err with
      | none => exact absurd hf h
      | some p => rfl
    simp [Wrap, Wrapf, hn, ht, ha]

/-- Claim C14, amended, at an error of another type without a cause, which
gets the captured stack, and at `errors.Join` of a `*Error`, which gets
none. -/
theorem Wrap_stack_witness :
    sampleTracing.traceable = true ∧ sampleExternal.isNil = false ∧
    firstError sampleExternal = none ∧
    Wrap samplePlatform sampleTracing sampleExternal 502 "upstream failed"
      = .ptr (.ref 502 "upstream failed" "" sampleExternal (some [101, 201, 301])) ∧
    sampleJoined.isNil = false ∧ firstError sampleJoined ≠ none ∧
    Wrap samplePlatform sampleTracing sampleJoined 502 "upstream failed"
      = .ptr (.ref 502 "upstream failed" "" sampleJoined none) :=
  have hj : firstError sampleJoined ≠ none := by
    rw [show firstError sampleJoined = some (.ref 500 "db down" "" .nil none) from rfl]
    exact Option.some_ne_none _
  ⟨rfl, rfl, rfl,
    ((Wrap_stack samplePlatform sampleTracing sampleExternal 502 "upstream failed" "" []
      rfl rfl).2.1 rfl).1,
    rfl, hj,
    ((Wrap_stack samplePlatform sampleTracing sampleJoined 502 "upstream failed" "" []
      rfl rfl).2.2 hj).1⟩

/-- Claim C15: with tracing disabled, which is the initial setting and the one
after `SetTraceable(false)`, `New`, `Wrap` and `Wrapf` return an error with no
captured stack, and the `%+v` rendering of such an error is exactly
`code: <c>, msg: <m>`, followed by `\nCause by ` and the detailed rendering of
the cause when there is one; when the wrapped chain carries no stack either,
as every chain built under that setting does, the whole rendering has no
frame line. -/
theorem untraced :
    ({} : Vars).traceable = false ∧
    (∀ v : Vars, (SetTraceable v false).traceable = false) ∧
    (∀ (pf : Platform) (v w : Vars) (c : Int) (format : String) (params : List Operand),
      v.traceable = false →
      New pf v c format params = .ptr (.ref c (Sprintf format params) "" .nil none) ∧
      Sprintf "%+v" [error.operand pf w (New pf v c format params)]
        = "code: " ++ toString c ++ ", msg: " ++ Sprintf format params) ∧
    (∀ (pf : Platform) (v w : Vars) (err : error) (c : Int) (m format : String)
        (params : List Operand), v.traceable = false → err.isNil = false →
      Wrap pf v err c m = .ptr (.ref c m "" err none) ∧
      Sprintf "%+v" [error.operand pf w (Wrap pf v err c m)]
        = "code: " ++ toString c ++ ", msg: " ++ m
            ++ "\nCause by " ++ Sprintf "%+v" [error.operand pf w err] ∧
      Wrapf pf v err c format params = .ptr (.ref c (Sprintf format params) "" err none) ∧
      Sprintf "%+v" [error.operand pf w (Wrapf pf v err c format params)]
        = "code: " ++ toString c ++ ", msg: " ++ Sprintf format params
            ++ "\nCause by " ++ Sprintf "%+v" [error.operand pf w err]) ∧
    (∀ (pf : Platform) (v : Vars) (err : error) (c : Int) (m format : String)
        (params : List Operand), v.traceable = false →
      (New pf v c format params).noStack = true ∧
      (err.noStack = true → (Wrap pf v err c m).noStack = true ∧
        (Wrapf pf v err c format params).noStack = true)) ∧
    (∀ (pf : Platform) (w : Vars) (p : Error), p.noStack = true →
      Sprintf "%+v" [error.operand pf w (.ptr p)] = p.plainDetail) := by
  refine ⟨rfl, fun _ => rfl, ?_, ?_, ?_, fun pf w p h => detail_noStack pf w p h⟩
  rotate_left 2
  · intro pf v err c m format params ht
    refine ⟨by simp [New, ht, error.noStack, Error.noStack], ?_⟩
    intro he
    cases err <;>
      simp_all [Wrap, Wrapf, error.isNil, error.noStack, Error.noStack]
  · intro pf v w c format params ht
    have hnew : New pf v c format params = .ptr (.ref c (Sprintf format params) "" .nil none) := by
      simp [New, ht]
    refine ⟨hnew, ?_⟩
    rw [hnew, detail_ref]
    simp [error.isNil]
  · intro pf v w err c m format params ht hn
    have hw : Wrap pf v err c m = .ptr (.ref c m "" err none) := by
      simp [Wrap, hn, ht]
    have hwf : Wrapf pf v err c format params
        = .ptr (.ref c (Sprintf format params) "" err none) := by
      simp [Wrapf, hn, ht]
    refine ⟨hw, ?_, hwf, ?_⟩
    · rw [hw, detail_ref]
      simp [hn, String.append_assoc]
    · rw [hwf, detail_ref]
      simp [hn, String.append_assoc]

/-- Claim C15 at the example values, under the initial setting. -/
theorem untraced_witness :
    ({} : Vars).traceable = false ∧ sampleStructured.isNil = false ∧
    Sprintf "%+v" [error.operand samplePlatform {}
        (Wrap samplePlatform {} sampleStructured 502 "upstream failed")]
      = "code: 502, msg: upstream failed\nCause by code: 500, msg: db down" :=
  ⟨rfl, rfl,
    ((untraced.2.2.2.1 samplePlatform {} {} sampleStructured 502 "upstream failed" "" []
      rfl rfl).2.1).trans rfl⟩

/-- Claim C16: `Wrapf` agrees with `Wrap` on the formatted message: for every
error, code, format string and argument list, under the same tracing
configuration, `Wrapf(err, c, f, args...)` is `Wrap(err, c, Sprintf(f,
args...))`; both are nil, or both hold the same code, message, data, cause
and stack. -/
theorem Wrapf_eq_Wrap (pf : Platform) (v : Vars) (err : error) (c : Int) (f : String)
    (args : List Operand) :
    Wrapf pf v err c f args = Wrap pf v err c (Sprintf f args) ∧
    ((Wrapf pf v err c f args).isNil = true ↔ err.isNil = true) := by
  refine ⟨rfl, ?_⟩
  cases err <;> simp [Wrapf, error.isNil]

/-! ## The claims on stack traces -/

/-- Every text contains the empty text. -/
theorem Contains_empty (str : String) : Contains str "" = true := by
  unfold Contains
  cases str.data <;> rfl

/-- Claim C17, as stated, fails: the filter keeps the frames whose detailed
rendering contains the marker and drops the others.  Under the initial, empty
marker every frame matches and every frame is written; under the marker
`errs.go` the frame of `errs.go` is the one that is written. -/
theorem Format_keeps_matching :
    isOutput {} (frame.detail samplePlatform 101) = true ∧
    isOutput {} (frame.detail samplePlatform 201) = true ∧
    stackTrace.Format samplePlatform {} (some [101, 201]) plusState 'v'
      = "\ngithub.com/x/errs.New\n\t/src/errs/errs.go:32\nmain.main\n\t/src/main.go:10" ∧
    isOutput { content := "errs.go" } (frame.detail samplePlatform 101) = true ∧
    isOutput { content := "errs.go" } (frame.detail samplePlatform 201) = false ∧
    stackTrace.Format samplePlatform { content := "errs.go" } (some [101, 201]) plusState 'v'
      = "\ngithub.com/x/errs.New\n\t/src/errs/errs.go:32" := by
  refine ⟨?_, ?_, ?_, ?_, ?_, ?_⟩ <;> decide

/-- Claim C17, amended: in the detailed stack-trace rendering, every frame
whose detailed rendering (qualified name, newline, tab, file, colon, line)
contains the marker `content` is written on its own line preceded by a
newline, in capture order, and every other frame is dropped; the marker is
initially empty, and then every frame is written. -/
theorem stackTrace_Format_plus (pf : Platform) (v : Vars) (st : stackTrace) (s : fmtFlags)
    (h : Flag s '+' = true) :
    stackTrace.Format pf v st s 'v'
      = writeAll (((st.getD []).filter (fun f => Contains (frame.detail pf f) v.content)).map
          (fun f => "\n" ++ frame.detail pf f)) ∧
    ({} : Vars).content = "" ∧
    (v.content = "" →
      stackTrace.Format pf v st s 'v'
        = writeAll ((st.getD []).map (fun f => "\n" ++ frame.detail pf f))) := by
  have hgen : stackTrace.Format pf v st s 'v'
      = writeAll (((st.getD []).filter (fun f => Contains (frame.detail pf f) v.content)).map
          (fun f => "\n" ++ frame.detail pf f)) := by
    simp only [stackTrace.Format, h, if_true]
    exact formatPlus_eq pf v s h _
  refine ⟨hgen, rfl, ?_⟩
  intro hc
  rw [hgen, hc]
  simp [Contains_empty]

/-- Claim C17, amended, at two frames under the marker `errs.go`. -/
theorem stackTrace_Format_plus_witness :
    Flag plusState '+' = true ∧
    stackTrace.Format samplePlatform { content := "errs.go" } (some [201, 101]) plusState 'v'
      = "\ngithub.com/x/errs.New\n\t/src/errs/errs.go:32" :=
  ⟨rfl, ((stackTrace_Format_plus samplePlatform { content := "errs.go" } (some [201, 101])
    plusState rfl).1).trans (by decide)⟩

/-! ## Facts about `funcName` -/

theorem take_indexOf (c : Char) (l : List Char) :
    l.take (l.indexOf c) = l.takeWhile (fun x => x != c) := by
  induction l with
  | nil => rfl
  | cons x xs ih =>
    by_cases hx : x = c
    · subst hx
      simp [List.takeWhile_cons]
    · have hb : (x != c) = true := by simp [hx]
      rw [List.indexOf_cons_ne _ hx, List.takeWhile_cons, hb]
      simp [ih]

theorem drop_indexOf (c : Char) (l : List Char) :
    l.drop (l.indexOf c) = l.dropWhile (fun x => x != c) := by
  induction l with
  | nil => rfl
  | cons x xs ih =>
    by_cases hx : x = c
    · subst hx
      simp [List.dropWhile_cons]
    · have hb : (x != c) = true := by simp [hx]
      rw [List.indexOf_cons_ne _ hx, List.dropWhile_cons, hb]
      simp [ih]

/-- Slicing after `LastIndex` leaves the text after the last occurrence. -/
theorem drop_LastIndex (c : Char) (l : List Char) :
    l.drop (LastIndex l c + 1).toNat = (l.reverse.takeWhile (fun x => x != c)).reverse := by
  unfold LastIndex
  by_cases h : c ∈ l
  · have hk : l.reverse.indexOf c < l.length := by
      have := List.indexOf_lt_length.mpr (List.mem_reverse.mpr h)
      simpa using this
    have hn : ((l.length : Int) - 1 - (l.reverse.indexOf c : Int) + 1).toNat
        = l.length - l.reverse.indexOf c := by omega
    rw [if_pos h, hn, ← take_indexOf, List.take_reverse, List.reverse_reverse]
  · have h' : c ∉ l.reverse := fun hm => h (List.mem_reverse.mp hm)
    rw [if_neg h, takeWhile_ne_of_not_mem c _ h']
    simp

/-- Slicing after `Index` leaves the text after the first occurrence. -/
theorem drop_Index (c : Char) (l : List Char) :
    l.drop (Index l c + 1).toNat
      = if c ∈ l then (l.dropWhile (fun x => x != c)).drop 1 else l := by
  unfold Index
  by_cases h : c ∈ l
  · have hn : ((l.indexOf c : Int) + 1).toNat = l.indexOf c + 1 := by omega
    rw [if_pos h, if_pos h, hn, ← drop_indexOf, List.drop_drop, Nat.add_comm]
  · rw [if_neg h, if_neg h]
    simp

theorem slash_not_mem_afterLastSlash (l : List Char) : '/' ∉ afterLastSlash l := by
  intro hm
  have h1 : '/' ∈ l.reverse.takeWhile (fun c => c != '/') := List.mem_reverse.mp hm
  have h2 := List.mem_takeWhile_imp h1
  simp at h2

theorem afterFirstDot_subset (l : List Char) (x : Char) (h : x ∈ afterFirstDot l) : x ∈ l := by
  unfold afterFirstDot at h
  split at h
  · exact (List.dropWhile_sublist _).subset (List.mem_of_mem_drop h)
  · exact h

/-- The slice bound `LastIndex + 1` lies within the text. -/
theorem LastIndex_bounds (c : Char) (l : List Char) :
    0 ≤ LastIndex l c + 1 ∧ LastIndex l c + 1 ≤ l.length := by
  unfold LastIndex
  by_cases h : c ∈ l
  · have hk : l.reverse.indexOf c < l.length := by
      have := List.indexOf_lt_length.mpr (List.mem_reverse.mpr h)
      simpa using this
    rw [if_pos h]
    omega
  · rw [if_neg h]
    omega

/-- The slice bound `Index + 1` lies within the text. -/
theorem Index_bounds (c : Char) (l : List Char) :
    0 ≤ Index l c + 1 ∧ Index l c + 1 ≤ l.length := by
  unfold Index
  by_cases h : c ∈ l
  · have hk := List.indexOf_lt_length.mpr h
    rw [if_pos h]
    omega
  · rw [if_neg h]
    omega

/-! ## The claims on function names, capture and `Msg` -/

/-- Claim C18, as stated, fails: the receiver-type prefix of a method is not
stripped; for `github.com/a/b.(*T).Method` the result is `(*T).Method`. -/
theorem funcName_keeps_receiver :
    funcName "github.com/a/b.(*T).Method" = "(*T).Method" ∧
    funcName "github.com/a/b.(*T).Method" ≠ "Method" := by
  constructor <;> decide

/-- Claim C18, amended: for every qualified function name, `funcName` strips
the package path prefix and returns the text after the first `.` that follows
the last `/` (the whole remainder when there is no `/` or no `.`), so the
receiver-type prefix of a method is kept; both slices are within bounds on
every string, the empty one included, and the result contains no `/`. -/
theorem funcName_spec (s : String) :
    funcName s = shortName s ∧
    '/' ∉ (funcName s).data ∧
    (0 ≤ LastIndex s.data '/' + 1 ∧ LastIndex s.data '/' + 1 ≤ s.data.length) ∧
    (0 ≤ Index (afterLastSlash s.data) '.' + 1 ∧
      Index (afterLastSlash s.data) '.' + 1 ≤ (afterLastSlash s.data).length) ∧
    funcName "" = "" ∧
    funcName "github.com/a/b.Func" = "Func" ∧
    funcName "github.com/a/b.(*T).Method" = "(*T).Method" := by
  have heq : funcName s = shortName s := by
    simp only [funcName, shortName, afterFirstDot, afterLastSlash, drop_LastIndex, drop_Index]
  refine ⟨heq, ?_, LastIndex_bounds _ _, Index_bounds _ _, by decide, by decide, by decide⟩
  rw [heq]
  intro hm
  exact slash_not_mem_afterLastSlash s.data (afterFirstDot_subset _ _ hm)

/-- Claim C19: for every stack and every skip setting, `callers` returns a
non-nil slice of at most 32 frames, one for each program counter that
`runtime.Callers` filled in and in the same order, and the skip value it
passes is the current `stackSkip`, which is 3 until `SetStackSkip` changes
it. -/
theorem callers_spec (pf : Platform) (v : Vars) :
    callers pf v = some (Callers pf v.stackSkip 32) ∧
    (Callers pf v.stackSkip 32).length ≤ 32 ∧
    Callers pf v.stackSkip 32 = (pf.stack v.stackSkip).take 32 ∧
    ({} : Vars).stackSkip = 3 ∧
    (∀ n : Int, (SetStackSkip v n).stackSkip = n) ∧
    (∀ n : Int, callers pf (SetStackSkip v n) = some ((pf.stack n).take 32)) := by
  refine ⟨?_, ?_, rfl, rfl, fun _ => rfl, ?_⟩
  · simp [callers]
  · simp [Callers, List.length_take]
  · intro n
    simp [callers, Callers, SetStackSkip]

/-- Claim C20 at the failing input, an `error` that holds a nil `*Error`:
`Code` returns `RetOk` and `Error()` returns `"success"` there, but `Msg` calls
`err.Unwrap()`, which reads `e.cause` through the nil pointer, and panics; the
same happens when the nil `*Error` is reached through the chain. -/
theorem Msg_nil_pointer :
    (error.ptr .null).isNil = false ∧
    Code (.ptr .null) = RetOk ∧
    Error.Error .null = "success" ∧
    Error.Unwrap .null = none ∧
    Msg (.ptr .null) = none ∧
    Msg (.ext "wrapped" (.ptr .null)) = none := by
  refine ⟨rfl, ?_, rfl, rfl, ?_, ?_⟩ <;> decide

end errs
